import Mathlib

/-!
Shallow embedding of the ryzen-ppd daemon (ryzen_ppd/main.py, ryzen_ppd/cpu.py,
ryzen_ppd/utils.py): the configuration model, the RyzenAdj library wrapper, the
profile-application cycle, the D-Bus callbacks, the wake-signal mechanics and
the configuration validation, together with theorems checking the claims of the
specification against this embedding.
-/

namespace RyzenPpd

/-! ## Data model (configuration values) -/

/-- A JSON value as decoded by json.loads for a profile limit entry. The
constructor for booleans is kept separate because Python treats bool as a
subclass of int (isinstance of True against int holds), while num stands for a
non-integer number and str for a string. -/
inductive JsonVal where
  | int (n : Int)
  | bool (b : Bool)
  | num (q : ℚ)
  | str (s : String)
deriving DecidableEq, Repr

/-- Python isinstance against int: true for int and, by subclassing, bool. -/
def JsonVal.isIntInstance : JsonVal → Bool
  | .int _ => true
  | .bool _ => true
  | _ => false

/-- A limit entry coerced to the integer it denotes in Python arithmetic
(True counts as 1, False as 0); only int and bool entries survive
validation. -/
def JsonVal.toInt : JsonVal → Int
  | .int n => n
  | .bool b => if b then 1 else 0
  | _ => 0

/-- The ryzenadj section of the configuration: the configured limit names and
the name of the monitored limit. -/
structure RyzenadjCfg where
  limits : List String
  monitor : String
deriving DecidableEq, Repr

/-- A value stored in the dytc configuration dictionary: the ACPI method
string under the key "method", or an integer DYTC command under one of the
three mode keys. -/
inductive DytcVal where
  | methodVal (m : Option String)
  | cmd (c : Int)
deriving DecidableEq, Repr

/-- The dytc section. parse_config always materialises exactly the four keys
"method", "low-power", "balanced" and "performance". -/
structure DytcCfg where
  method : Option String
  low_power : Int
  balanced : Int
  performance : Int
deriving DecidableEq, Repr

/-- get_dytc_cmd in main.py, i.e. the dictionary lookup of a name in the
dytc section; none models a KeyError on an unknown key. -/
def get_dytc_cmd (d : DytcCfg) (name : String) : Option DytcVal :=
  if name = "method" then some (.methodVal d.method)
  else if name = "low-power" then some (.cmd d.low_power)
  else if name = "balanced" then some (.cmd d.balanced)
  else if name = "performance" then some (.cmd d.performance)
  else none

/-- Per-power-source settings, one for the ac section and one for the battery
section. -/
structure SourceCfg where
  profile : String
  update_rate_s : ℚ
  platform_profile : String
deriving DecidableEq, Repr

/-- The validated configuration produced by parse_config. -/
structure Config where
  ryzenadj : RyzenadjCfg
  profiles : List (String × List Int)
  dytc : DytcCfg
  ac : SourceCfg
  battery : SourceCfg
deriving DecidableEq, Repr

/-- The dictionary access of the configuration by power source, for the two
power-source names the daemon ever stores. -/
def Config.sourceCfg (c : Config) (s : String) : SourceCfg :=
  if s = "ac" then c.ac else c.battery

/-- get_power_profile in main.py: the profile-table lookup by name. -/
def get_power_profile (c : Config) (name : String) : Option (List Int) :=
  c.profiles.lookup name

/-! ## RyzenAdj wrapper (ryzen_ppd/cpu.py) -/

/-- Round half to even to an integer, the tie-breaking rule of the Python
round builtin. -/
def roundHalfEven (q : ℚ) : Int :=
  let f := ⌊q⌋
  let r := q - f
  if r < 1/2 then f
  else if 1/2 < r then f + 1
  else if f % 2 = 0 then f else f + 1

/-- Python round of a value to three decimal places, the precision default of
the get method. -/
def round3 (q : ℚ) : ℚ := (roundHalfEven (q * 1000) : ℚ) / 1000

/-- The get method of the RyzenAdj class: reads the field from the hardware
table and rounds to three decimals; none models the not-a-number sentinel the
library uses to report failure, which the method logs and maps to the Python
value None instead of raising. -/
def RyzenAdj.get (table : String → Option ℚ) (field : String) : Option ℚ :=
  (table field).map round3

/-- Python truthiness of the optional value argument of the set method: the
values None and 0 are falsy. -/
def pyTruthy : Option Int → Bool
  | none => false
  | some v => v != 0

/-- The conversion of the value argument to a ctypes unsigned long. -/
def cUlong (v : Int) : Int := v % (2 : Int) ^ 64

/-- The native library call issued by the set method: the two-argument form
with a value, or the zero-argument form. -/
inductive HwCall where
  | withArg (field : String) (value : Int)
  | noArg (field : String)
deriving DecidableEq, Repr

/-- Hardware-reported status codes for the two shapes of native set call. -/
structure HwEnv where
  statusWithArg : String → Int → Int
  statusNoArg : String → Int

/-- The set method of the RyzenAdj class: dispatches on the truthiness of the
value argument, issues the corresponding native call, and returns True exactly
when the status code is zero (a nonzero status is logged and yields False).
The result pairs the native call issued with the returned boolean. -/
def RyzenAdj.set (env : HwEnv) (field : String) (value : Option Int) :
    HwCall × Bool :=
  if pyTruthy value then
    let arg := cUlong (value.getD 0)
    (.withArg field arg, env.statusWithArg field arg == 0)
  else
    (.noArg field, env.statusNoArg field == 0)

/-! ## Profile application (write_power_profile in ryzen_ppd/main.py) -/

/-- A call made on the RyzenAdj wrapper during one apply cycle. -/
inductive AdjOp where
  | refresh
  | get (field : String)
  | set (field : String) (value : Int)
deriving DecidableEq, Repr

/-- The Python comparison of the current limit with the target, where the
current limit may be the value None returned by a failed get; in Python the
comparison of None with a float is False. -/
def pyEq (cur : Option ℚ) (target : ℚ) : Bool :=
  match cur with
  | none => false
  | some v => v == target

/-- write_power_profile in main.py: refresh the table, read the monitored
limit, compare it with the profile entry at the index of the monitored limit
divided by 1000, return early on equality, otherwise set every configured
limit to its raw profile value in list order. The returned list is the trace
of wrapper calls made; setOk carries the success results of the individual
set calls, which the source discards. -/
def write_power_profile (ra : RyzenadjCfg) (table : String → Option ℚ)
    (setOk : String → Int → Bool) (profile : List Int) : List AdjOp :=
  let limit_name := ra.monitor
  let limit_idx := ra.limits.indexOf limit_name
  let cur_limit := RyzenAdj.get table limit_name
  let target_limit : ℚ := (profile.getD limit_idx 0 : Int) / 1000
  if pyEq cur_limit target_limit then
    [.refresh, .get limit_name]
  else
    [.refresh, .get limit_name] ++
      ra.limits.enum.map fun p => AdjOp.set p.2 (profile.getD p.1 0)

/-! ## Daemon state and D-Bus callbacks (class Daemon in ryzen_ppd/main.py) -/

/-- The mutable daemon state: the current power source and the two event
flags of the thread. -/
structure DaemonState where
  power_source : String
  exit_event : Bool
  change_event : Bool
deriving DecidableEq, Repr

/-- An externally visible action performed by a callback: an invocation of
write_platform_profile with the looked-up dytc entry, or a notify_change wake
pulse. -/
inductive Effect where
  | platformWrite (arg : Option DytcVal)
  | notifyChange
deriving DecidableEq, Repr

/-- The ac_callback method of the Daemon class: reads the Online entry of the
changed properties (none models a missing key, whose KeyError returns early
with no action); otherwise it stores the new power source, writes the
platform profile for the new source and pulses the change event (the pulse of
notify_change leaves the flag cleared). -/
def ac_callback (c : Config) (st : DaemonState) (online : Option Bool) :
    DaemonState × List Effect :=
  match online with
  | none => (st, [])
  | some b =>
      let ps := if b then "ac" else "battery"
      let st1 : DaemonState :=
        { power_source := ps, exit_event := st.exit_event, change_event := false }
      (st1,
       [Effect.platformWrite (get_dytc_cmd c.dytc (c.sourceCfg ps).platform_profile),
        Effect.notifyChange])

/-- The sleep_callback method of the Daemon class: no action when entering
sleep; on wake-up, a single platform-profile write for the current power
source, with no state change and no wake pulse. -/
def sleep_callback (c : Config) (st : DaemonState) (args : Bool) :
    DaemonState × List Effect :=
  if args then (st, [])
  else
    (st,
     [Effect.platformWrite (get_dytc_cmd c.dytc (c.sourceCfg st.power_source).platform_profile)])

/-! ## Wake-signal mechanics (notify_change and run in ryzen_ppd/main.py) -/

/-- An atomic operation on the change_event flag of the daemon thread. -/
inductive EvAction where
  | set
  | clear
deriving DecidableEq, Repr

/-- The flag state after a sequence of event operations, starting from the
given initial state. -/
def runFlag (init : Bool) : List EvAction → Bool
  | [] => init
  | .set :: rest => runFlag true rest
  | .clear :: rest => runFlag false rest

/-- The operations the notify_change method performs on the change_event
flag: a set immediately followed by a clear. -/
def notify_change : List EvAction := [.set, .clear]

/-- The wait of the control loop on the change event when no further set
operation arrives during the wait: it returns before the timeout exactly when
the flag is already true when the wait begins. -/
def waitReturnsEarly (flagAtWait : Bool) : Bool := flagAtWait

/-! ## Power-source probe (is_on_ac in ryzen_ppd/utils.py) -/

/-- is_on_ac in utils.py, over the globbed online files paired with their
integer contents: the loop opens the first path and returns from inside the
loop body, so later matches are never read; with no match the function
assumes AC. The result pairs the list of paths actually read with the
returned boolean. -/
def is_on_ac (files : List (String × Int)) : List String × Bool :=
  match files with
  | [] => ([], true)
  | (p, v) :: _ => ([p], v == 1)

/-- The initial power source chosen by the constructor of the Daemon class. -/
def daemon_init_power_source (files : List (String × Int)) : String :=
  if (is_on_ac files).2 then "ac" else "battery"

/-! ## Configuration validation (parse_config in ryzen_ppd/main.py) -/

/-- The configuration file content after INI parsing, JSON decoding and the
per-option fallbacks, before the sanity checks of parse_config run. A missing
profiles section is modelled by none. -/
structure RawConfig where
  limits : List String
  monitor : String
  profiles_section : Option (List (String × List JsonVal))
  dytc_method : Option String
  dytc_low_power : Int
  dytc_balanced : Int
  dytc_performance : Int
  ac_profile : String
  ac_update_rate_s : ℚ
  ac_platform_profile : String
  battery_profile : String
  battery_update_rate_s : ℚ
  battery_platform_profile : String
deriving DecidableEq, Repr

/-- The body of the profiles loop of parse_config: the first fatal message
triggered while checking each profile in order, first its length against the
number of configured limits and then each entry for being an int instance;
none when every profile passes. -/
def checkProfiles (nLimits : Nat) : List (String × List JsonVal) → Option String
  | [] => none
  | (_, ls) :: rest =>
      if ls.length ≠ nLimits then some "invalid limit configuration"
      else if ls.any (fun v => !v.isIntInstance) then some "invalid limit"
      else checkProfiles nLimits rest

/-- parse_config in main.py after the raw file content is in hand: the sanity
checks in source order, returning the validated configuration or the first
fatal error. The flag acpi_call_present stands for the existence probe of
check_acpi_call_module, run only when an ACPI method is configured. A crash
while formatting an error message is likewise a fatal termination and is
folded into the error case. -/
def parse_config (raw : RawConfig) (acpi_call_present : Bool) :
    Except String Config :=
  if raw.monitor ∉ raw.limits then .error "invalid monitor value"
  else
    match raw.profiles_section with
    | none => .error "missing configuration section: profiles"
    | some ps =>
        match checkProfiles raw.limits.length ps with
        | some e => .error e
        | none =>
            if raw.dytc_method.isSome && !acpi_call_present then
              .error "kernel module acpi_call is not loaded"
            else
              let profileNames := ps.map Prod.fst
              let dytcKeys : List String :=
                ["method", "low-power", "balanced", "performance"]
              if raw.ac_profile ∉ profileNames then
                .error "undefined power profile"
              else if raw.ac_platform_profile ∉ dytcKeys then
                .error "undefined platform profile"
              else if raw.battery_profile ∉ profileNames then
                .error "undefined power profile"
              else if raw.battery_platform_profile ∉ dytcKeys then
                .error "undefined platform profile"
              else
                .ok
                  { ryzenadj := { limits := raw.limits, monitor := raw.monitor },
                    profiles := ps.map (fun p => (p.1, p.2.map JsonVal.toInt)),
                    dytc :=
                      { method := raw.dytc_method, low_power := raw.dytc_low_power,
                        balanced := raw.dytc_balanced,
                        performance := raw.dytc_performance },
                    ac :=
                      { profile := raw.ac_profile,
                        update_rate_s := raw.ac_update_rate_s,
                        platform_profile := raw.ac_platform_profile },
                    battery :=
                      { profile := raw.battery_profile,
                        update_rate_s := raw.battery_update_rate_s,
                        platform_profile := raw.battery_platform_profile } }

/-- Whether a parse_config outcome terminates the process (any critical
path). -/
def isFatal (r : Except String Config) : Bool :=
  match r with
  | .error _ => true
  | .ok _ => false

/-- The notion of an invalid configuration stated by the specification,
amended to match the membership test of the source: some profile has a length
different from the limit-name list, some limit entry is not an int instance,
the monitored limit is not among the configured limit names, or a power
source references a power profile that is not defined or a platform profile
that is not one of the four keys of the dytc dictionary, the key "method"
included even though it names the ACPI method string rather than a platform
mode. -/
def invalid_config (raw : RawConfig) : Bool :=
  let ps := raw.profiles_section.getD []
  let names := ps.map Prod.fst
  let dytcKeys : List String := ["method", "low-power", "balanced", "performance"]
  !(decide (raw.monitor ∈ raw.limits)) ||
  raw.profiles_section.isNone ||
  (ps.any fun p => p.2.length != raw.limits.length) ||
  (ps.any fun p => p.2.any fun v => !v.isIntInstance) ||
  !(decide (raw.ac_profile ∈ names)) ||
  !(decide (raw.ac_platform_profile ∈ dytcKeys)) ||
  !(decide (raw.battery_profile ∈ names)) ||
  !(decide (raw.battery_platform_profile ∈ dytcKeys))

/-! ## Concrete instances used by witnesses and counterexamples -/

/-- The ryzenadj section of the worked example of the specification. -/
def ra0 : RyzenadjCfg :=
  { limits := ["stapm_limit", "fast_limit", "slow_limit"], monitor := "stapm_limit" }

/-- A hardware table whose monitored stapm limit reads back 15. -/
def tableBalanced : String → Option ℚ :=
  fun f => if f = "stapm_limit" then some 15 else none

/-- A hardware environment whose set calls all report status zero. -/
def hwEnv0 : HwEnv := { statusWithArg := fun _ _ => 0, statusNoArg := fun _ => 0 }

/-- A small validated configuration used by the callback counterexample. -/
def cfg0 : Config :=
  { ryzenadj := ra0,
    profiles := [("low-power", [5000, 8000, 5000]), ("balanced", [15000, 20000, 15000])],
    dytc := { method := none, low_power := 0x13b001, balanced := 0x1fb001,
              performance := 0x12b001 },
    ac := { profile := "balanced", update_rate_s := 4, platform_profile := "balanced" },
    battery := { profile := "low-power", update_rate_s := 32,
                 platform_profile := "low-power" } }

/-- A raw configuration that is well formed except that the ac power source
names the dytc key "method" as its platform profile. -/
def raw0 : RawConfig :=
  { limits := ["stapm_limit", "fast_limit", "slow_limit"],
    monitor := "stapm_limit",
    profiles_section := some
      [("low-power", [.int 5000, .int 8000, .int 5000]),
       ("balanced", [.int 15000, .int 20000, .int 15000])],
    dytc_method := none,
    dytc_low_power := 0x13b001,
    dytc_balanced := 0x1fb001,
    dytc_performance := 0x12b001,
    ac_profile := "balanced",
    ac_update_rate_s := 4,
    ac_platform_profile := "method",
    battery_profile := "low-power",
    battery_update_rate_s := 32,
    battery_platform_profile := "low-power" }

/-! ## Helper lemmas -/

/-- The Python comparison with a failed or differing read is false. -/
theorem pyEq_eq_false_of_ne (cur : Option ℚ) (t : ℚ) (h : cur ≠ some t) :
    pyEq cur t = false := by
  cases cur with
  | none => rfl
  | some v =>
      simp only [pyEq, beq_eq_false_iff_ne, ne_eq]
      intro hv
      exact h (by rw [hv])

/-- Rounding half to even is the identity on integers. -/
theorem roundHalfEven_intCast (n : Int) : roundHalfEven (n : ℚ) = n := by
  simp only [roundHalfEven, Int.floor_intCast, sub_self]
  norm_num

/-- Python round at precision three is the identity on the read of 15. -/
theorem round3_fifteen : round3 (15 : ℚ) = 15 := by
  unfold round3
  have h : (15 : ℚ) * 1000 = ((15000 : Int) : ℚ) := by norm_num
  rw [h, roundHalfEven_intCast]
  norm_num

/-- The monitored read of the example hardware table. -/
theorem get_tableBalanced : RyzenAdj.get tableBalanced ra0.monitor = some 15 := by
  show (tableBalanced "stapm_limit").map round3 = some 15
  rw [show tableBalanced "stapm_limit" = some 15 from rfl]
  simp [round3_fifteen]

/-- The index of the monitored limit in the example configuration. -/
theorem ra0_indexOf : ra0.limits.indexOf ra0.monitor = 0 := by decide

/-- Claim C1: for every configuration and apply cycle, if the monitored limit
read back from the hardware equals the target value of the active profile for
that limit after the fixed unit conversion (the profile integer divided by
1000), the cycle issues no set call: only the refresh and the single get are
performed. -/
theorem write_power_profile_drift_avoidance (ra : RyzenadjCfg)
    (table : String → Option ℚ) (setOk : String → Int → Bool) (profile : List Int)
    (h : RyzenAdj.get table ra.monitor
        = some ((profile.getD (ra.limits.indexOf ra.monitor) 0 : Int) / 1000 : ℚ)) :
    write_power_profile ra table setOk profile = [AdjOp.refresh, AdjOp.get ra.monitor] := by
  unfold write_power_profile
  simp [h, pyEq]

/-- Witness for C1: the worked example of the specification, with the limit
list of three names, monitored stapm limit, a current read of 15 and the
balanced profile, makes a cycle that performs only the refresh and the get. -/
theorem write_power_profile_drift_avoidance_witness :
    RyzenAdj.get tableBalanced ra0.monitor
        = some ((([15000, 20000, 15000] : List Int).getD (ra0.limits.indexOf ra0.monitor) 0 : Int) / 1000 : ℚ) ∧
    write_power_profile ra0 tableBalanced (fun _ _ => true) [15000, 20000, 15000]
        = [AdjOp.refresh, AdjOp.get ra0.monitor] := by
  have h : RyzenAdj.get tableBalanced ra0.monitor
      = some ((([15000, 20000, 15000] : List Int).getD (ra0.limits.indexOf ra0.monitor) 0 : Int) / 1000 : ℚ) := by
    rw [get_tableBalanced, ra0_indexOf]
    show some (15 : ℚ) = some (((15000 : Int) : ℚ) / 1000)
    norm_num
  exact ⟨h,
    write_power_profile_drift_avoidance ra0 tableBalanced (fun _ _ => true)
      [15000, 20000, 15000] h⟩

/-- Claim C2: for every apply cycle in which the monitored limit differs from
the converted target, every configured field is written exactly once via set,
in the order of the configured limit-name list, each with the raw profile
integer. -/
theorem write_power_profile_drift_detected (ra : RyzenadjCfg)
    (table : String → Option ℚ) (setOk : String → Int → Bool) (profile : List Int)
    (h : RyzenAdj.get table ra.monitor
        ≠ some ((profile.getD (ra.limits.indexOf ra.monitor) 0 : Int) / 1000 : ℚ)) :
    write_power_profile ra table setOk profile =
      [AdjOp.refresh, AdjOp.get ra.monitor] ++
        ra.limits.enum.map fun p => AdjOp.set p.2 (profile.getD p.1 0) := by
  have hf : pyEq (RyzenAdj.get table ra.monitor)
      ((profile.getD (ra.limits.indexOf ra.monitor) 0 : Int) / 1000 : ℚ) = false :=
    pyEq_eq_false_of_ne _ _ h
  unfold write_power_profile
  simp only [hf]
  rfl

/-- Witness for C2: the worked example with the performance profile and a
current read of 15 issues exactly three set calls with the values 25000,
30000 and 25000, in the order of the configured limit names. -/
theorem write_power_profile_drift_detected_witness :
    RyzenAdj.get tableBalanced ra0.monitor
        ≠ some ((([25000, 30000, 25000] : List Int).getD (ra0.limits.indexOf ra0.monitor) 0 : Int) / 1000 : ℚ) ∧
    write_power_profile ra0 tableBalanced (fun _ _ => true) [25000, 30000, 25000] =
      [AdjOp.refresh, AdjOp.get "stapm_limit", AdjOp.set "stapm_limit" 25000,
       AdjOp.set "fast_limit" 30000, AdjOp.set "slow_limit" 25000] := by
  have h : RyzenAdj.get tableBalanced ra0.monitor
      ≠ some ((([25000, 30000, 25000] : List Int).getD (ra0.limits.indexOf ra0.monitor) 0 : Int) / 1000 : ℚ) := by
    rw [get_tableBalanced, ra0_indexOf]
    show some (15 : ℚ) ≠ some (((25000 : Int) : ℚ) / 1000)
    simp only [ne_eq, Option.some.injEq]
    norm_num
  refine ⟨h, ?_⟩
  rw [write_power_profile_drift_detected ra0 tableBalanced (fun _ _ => true)
    [25000, 30000, 25000] h]
  decide

/-- Claim C5: a power-source change notification whose changed-properties
mapping lacks the Online key leaves the daemon state unchanged in every field
(current power source, wake flag, stop flag), performs no platform-mode write
and raises no wake signal. -/
theorem ac_callback_missing_online (c : Config) (st : DaemonState) :
    ac_callback c st none = (st, []) := rfl

/-- Claim C6: a sleep event with entering-sleep false performs exactly one
platform-mode write using the mode configured for the current power source,
with no state change, no wake signal and no profile re-application; a sleep
event with entering-sleep true performs no action at all. -/
theorem sleep_callback_behavior (c : Config) (st : DaemonState) :
    sleep_callback c st true = (st, []) ∧
    sleep_callback c st false =
      (st, [Effect.platformWrite
        (get_dytc_cmd c.dytc (c.sourceCfg st.power_source).platform_profile)]) :=
  ⟨rfl, rfl⟩

/-- Claim C7: when the hardware read of the monitored limit fails with the
not-a-number sentinel, get returns the failure value none instead of raising,
the drift-equality check does not succeed, the cycle falls through to writing
every field of the active profile, and the trace of the cycle does not depend
on the success results of the individual set calls. -/
theorem write_power_profile_get_failure (ra : RyzenadjCfg)
    (table : String → Option ℚ) (setOk setOk2 : String → Int → Bool)
    (profile : List Int) (h : table ra.monitor = none) :
    RyzenAdj.get table ra.monitor = none ∧
    pyEq (RyzenAdj.get table ra.monitor)
      ((profile.getD (ra.limits.indexOf ra.monitor) 0 : Int) / 1000 : ℚ) = false ∧
    write_power_profile ra table setOk profile =
      [AdjOp.refresh, AdjOp.get ra.monitor] ++
        ra.limits.enum.map (fun p => AdjOp.set p.2 (profile.getD p.1 0)) ∧
    write_power_profile ra table setOk profile =
      write_power_profile ra table setOk2 profile := by
  have hg : RyzenAdj.get table ra.monitor = none := by
    simp [RyzenAdj.get, h]
  refine ⟨hg, by rw [hg]; rfl, ?_, rfl⟩
  unfold write_power_profile
  simp [hg, pyEq]

/-- Witness for C7: with a hardware table that fails every read, the cycle on
the worked example falls through to writing all three fields, independently
of the set statuses. -/
theorem write_power_profile_get_failure_witness :
    ((fun _ => (none : Option ℚ)) ra0.monitor = none) ∧
    (RyzenAdj.get (fun _ => none) ra0.monitor = none ∧
     pyEq (RyzenAdj.get (fun _ => none) ra0.monitor)
       ((([15000, 20000, 15000] : List Int).getD (ra0.limits.indexOf ra0.monitor) 0 : Int) / 1000 : ℚ) = false ∧
     write_power_profile ra0 (fun _ => none) (fun _ _ => true) [15000, 20000, 15000] =
       [AdjOp.refresh, AdjOp.get ra0.monitor] ++
         ra0.limits.enum.map (fun p =>
           AdjOp.set p.2 (([15000, 20000, 15000] : List Int).getD p.1 0)) ∧
     write_power_profile ra0 (fun _ => none) (fun _ _ => true) [15000, 20000, 15000] =
       write_power_profile ra0 (fun _ => none) (fun _ _ => false) [15000, 20000, 15000]) :=
  ⟨rfl,
   write_power_profile_get_failure ra0 (fun _ => none) (fun _ _ => true)
     (fun _ _ => false) [15000, 20000, 15000] rfl⟩

/-- Claim C3, counterexample: delivering an event whose Online value matches
the current power source does trigger a platform-mode write and a wake
signal. With the daemon on ac, an Online-true event leaves the power source
"ac", yet the handler writes the platform mode of the ac policy and pulses
the change event, contradicting the claim that a matching event triggers
neither. -/
theorem ac_callback_fires_without_actual_change :
    (ac_callback cfg0 { power_source := "ac", exit_event := false, change_event := false }
        (some true)).1.power_source = "ac" ∧
    (ac_callback cfg0 { power_source := "ac", exit_event := false, change_event := false }
        (some true)).2 =
      [Effect.platformWrite (some (DytcVal.cmd 0x1fb001)), Effect.notifyChange] := by
  constructor
  · rfl
  · rfl

/-- Claim C3, amended: for every event that carries the Online property the
handler sets the power source to "ac" if online is true and to "battery"
otherwise, and it writes the platform mode for the new power source exactly
once and raises the re-evaluate-now signal on every such event, whether or
not the power source actually changed. -/
theorem ac_callback_behavior (c : Config) (st : DaemonState) (b : Bool) :
    ac_callback c st (some b) =
      ({ power_source := if b then "ac" else "battery",
         exit_event := st.exit_event, change_event := false },
       [Effect.platformWrite (get_dytc_cmd c.dytc
          (c.sourceCfg (if b then "ac" else "battery")).platform_profile),
        Effect.notifyChange]) := rfl

/-- Claim C4, counterexample: the interleaving in which notify_change runs to
completion (set immediately followed by clear) before the control loop
reaches its interval wait leaves the change flag false, so a wait that then
begins with no further signal does not return early and blocks for the full
interval: the wake pulse is lost. -/
theorem notify_change_pulse_lost_before_wait :
    runFlag false notify_change = false ∧
    waitReturnsEarly (runFlag false notify_change) = false := ⟨rfl, rfl⟩

/-- Claim C4, amended: the wake pulse is observed only while the change flag
is still set. If the set of notify_change has run but its clear has not when
the control loop reaches its wait, the wait returns without blocking; if
notify_change has completed before the loop reaches the wait and no further
signal arrives, the pulse is lost and the wait blocks for the full
interval. -/
theorem notify_change_pulse_semantics :
    waitReturnsEarly (runFlag false [EvAction.set]) = true ∧
    waitReturnsEarly (runFlag false notify_change) = false ∧
    notify_change = [EvAction.set] ++ [EvAction.clear] := ⟨rfl, rfl, rfl⟩

/-- Claim C8, counterexample: the set method invoked with the integer limit
value 0 does not pass the value to the hardware set function; because Python
treats 0 as falsy, it issues the zero-argument call instead of the
two-argument call carrying 0. -/
theorem set_zero_value_drops_argument :
    (RyzenAdj.set hwEnv0 "stapm_limit" (some 0)).1 = HwCall.noArg "stapm_limit" ∧
    (RyzenAdj.set hwEnv0 "stapm_limit" (some 0)).1 ≠ HwCall.withArg "stapm_limit" 0 := by
  constructor
  · rfl
  · decide

/-- Claim C8, amended: for every field and integer limit value, set invokes
the two-argument hardware set function with the value converted to a ctypes
unsigned long when the value is nonzero, and the zero-argument variant when
the value is 0 (or missing); in both cases it returns True if and only if
the hardware-reported status code is zero. -/
theorem set_contract (env : HwEnv) (field : String) (v : Int) :
    ((RyzenAdj.set env field (some v)).1 =
      if v ≠ 0 then HwCall.withArg field (cUlong v) else HwCall.noArg field) ∧
    ((RyzenAdj.set env field (some v)).2 = true ↔
      (if v ≠ 0 then env.statusWithArg field (cUlong v) else env.statusNoArg field) = 0) := by
  rcases eq_or_ne v 0 with rfl | hv
  · refine ⟨rfl, ?_⟩
    simp [RyzenAdj.set, pyTruthy]
  · have ht : pyTruthy (some v) = true := by
      simp [pyTruthy, hv]
    constructor
    · simp [RyzenAdj.set, ht, hv]
    · simp [RyzenAdj.set, ht, hv]

/-- Claim C10: with no file matching the glob, the power-source probe reads
nothing and returns true (assume AC), so the initial power source of the
daemon is "ac"; with one or more matching files, only the first match is
read and alone determines the result, the remaining matches never being
consulted. -/
theorem is_on_ac_probe (p : String) (v : Int) (rest : List (String × Int)) :
    is_on_ac [] = ([], true) ∧
    daemon_init_power_source [] = "ac" ∧
    is_on_ac ((p, v) :: rest) = ([p], v == 1) ∧
    daemon_init_power_source ((p, v) :: rest) =
      (if v == 1 then "ac" else "battery") := by
  refine ⟨rfl, rfl, rfl, ?_⟩
  rfl

/-- The profiles loop passes exactly when no profile has a wrong length and
no limit entry fails the int-instance check. -/
theorem checkProfiles_eq_none_iff (n : Nat) (ps : List (String × List JsonVal)) :
    checkProfiles n ps = none ↔
      ((ps.any fun p => p.2.length != n) = false ∧
       (ps.any fun p => p.2.any fun v => !v.isIntInstance) = false) := by
  induction ps with
  | nil => simp [checkProfiles]
  | cons hd tl ih =>
      obtain ⟨nm, ls⟩ := hd
      by_cases hl : ls.length = n
      · by_cases hi : (ls.any fun v => !v.isIntInstance) = true
        · simp [checkProfiles, hl, hi]
        · simp only [Bool.not_eq_true] at hi
          simp [checkProfiles, hl, hi, ih]
      · simp [checkProfiles, hl]

/-- Claim C9, counterexample: a configuration whose ac power source names
"method" as its platform profile is accepted by parse_config (no fatal
termination), although "method" is not one of the three platform-mode names
and its dytc entry is the ACPI method string, not an integer mode command. -/
theorem parse_config_accepts_method_as_platform_profile :
    isFatal (parse_config raw0 true) = false ∧
    raw0.ac_platform_profile = "method" ∧
    raw0.ac_platform_profile ∉ (["low-power", "balanced", "performance"] : List String) ∧
    get_dytc_cmd
        { method := raw0.dytc_method, low_power := raw0.dytc_low_power,
          balanced := raw0.dytc_balanced, performance := raw0.dytc_performance }
        raw0.ac_platform_profile = some (DytcVal.methodVal none) := by
  refine ⟨rfl, rfl, by decide, rfl⟩

/-- Claim C9, amended: with the ACPI probe satisfied, parse_config terminates
the process fatally if and only if the configuration is invalid, where
invalid means: some profile has a length different from the limit-name list,
some limit entry is not an int instance, the monitored limit is not among the
configured limit names, the profiles section is missing, or a power source
references an undefined power profile or a platform profile that is not a key
of the dytc dictionary — a dictionary whose keys include "method" besides the
three mode names, so a platform profile naming "method" is accepted even
though it is not a platform mode. -/
theorem parse_config_fatal_iff (raw : RawConfig) :
    isFatal (parse_config raw true) = invalid_config raw := by
  unfold parse_config invalid_config
  by_cases hm : raw.monitor ∈ raw.limits
  · cases hps : raw.profiles_section with
    | none => simp [hm, hps, isFatal]
    | some ps =>
        cases hcp : checkProfiles raw.limits.length ps with
        | some e =>
            have h1 : checkProfiles raw.limits.length ps ≠ none := by simp [hcp]
            rw [ne_eq, checkProfiles_eq_none_iff] at h1
            cases hA : (ps.any fun p => p.2.length != raw.limits.length) with
            | true => simp [hm, hps, hcp, isFatal, hA]
            | false =>
                have hB : (ps.any fun p => p.2.any fun v => !v.isIntInstance) = true := by
                  cases hB : (ps.any fun p => p.2.any fun v => !v.isIntInstance) with
                  | true => rfl
                  | false => exact absurd ⟨hA, hB⟩ h1
                simp [hm, hps, hcp, isFatal, hA, hB]
        | none =>
            have h1 := (checkProfiles_eq_none_iff raw.limits.length ps).mp hcp
            by_cases ha1 : raw.ac_profile ∈ ps.map Prod.fst
            · by_cases ha2 : raw.ac_platform_profile ∈
                  (["method", "low-power", "balanced", "performance"] : List String)
              · by_cases hb1 : raw.battery_profile ∈ ps.map Prod.fst
                · by_cases hb2 : raw.battery_platform_profile ∈
                      (["method", "low-power", "balanced", "performance"] : List String)
                  · simp [hm, hps, hcp, isFatal, h1.1, h1.2, ha1, ha2, hb1, hb2]
                  · simp [hm, hps, hcp, isFatal, h1.1, h1.2, ha1, ha2, hb1, hb2]
                · simp [hm, hps, hcp, isFatal, h1.1, h1.2, ha1, ha2, hb1]
              · simp [hm, hps, hcp, isFatal, h1.1, h1.2, ha1, ha2]
            · simp [hm, hps, hcp, isFatal, h1.1, h1.2, ha1]
  · simp [hm, isFatal]

end RyzenPpd
